import Mathlib

/-!
Shallow embedding of the ARO Bazzar backend (src/app.py, src/app1.py):
a Flask + SQLite e-commerce service with users, categories, products,
orders and order items.  The SQLite store is modelled as lists of typed
rows; each Flask view function becomes a Lean function from the request
data and the store to an outcome (and, for mutations, the new store).
The JWT library and bcrypt are external collaborators and are passed in
as verification functions.
-/

namespace AroBazzar

/-- JSON values as Flask's `request.get_json()` delivers them to the
handlers.  Python's `None` (absent key via `dict.get`) and JSON `null`
are the same Python value, so both are `JVal.null`. -/
inductive JVal where
  | null
  | str (s : String)
  | num (q : Rat)
  | bool (b : Bool)
deriving DecidableEq, Repr

/-- Python truthiness of a JSON value (`not x` in the handlers). -/
def truthy : JVal → Bool
  | .null => false
  | .str s => s ≠ ""
  | .num q => q ≠ 0
  | .bool b => b

/-- `data.get(k)`: `None` when the key is absent, the (possibly null)
value otherwise. -/
def pyGet (d : List (String × JVal)) (k : String) : JVal :=
  match d.lookup k with
  | none => .null
  | some v => v

/-- `data.get(k, dflt)`: the default only when the key is absent; a key
present with JSON null stays null. -/
def pyGetD (d : List (String × JVal)) (k : String) (dflt : JVal) : JVal :=
  match d.lookup k with
  | none => dflt
  | some v => v

/-! ## Authorization guard (admin_required, app.py lines 28-40) -/

/-- The verified claims a JWT carries: `create_access_token(identity=...,
additional_claims={"is_admin": ...})` in `login_user`. -/
structure Claims where
  subject_id : Nat
  is_admin : Bool
deriving DecidableEq, Repr

/-- The two distinct authorization failures the guard can produce:
`verify_jwt_in_request` aborting with 401 versus the decorator's own
403 `"Administration rights required"` response. -/
inductive AuthError where
  | unauthenticated
  | forbidden
deriving DecidableEq, Repr

/-- `@jwt_required()` / `verify_jwt_in_request()`: the flask_jwt_extended
library validates the bearer token (missing, malformed, expired and
badly signed tokens all make `verify` return `none`, which the library
turns into a 401) and otherwise exposes the claims (`get_jwt()`). -/
def verify_jwt_in_request (verify : Option String → Option Claims)
    (token : Option String) : Except AuthError Claims :=
  match verify token with
  | none => .error .unauthenticated
  | some c => .ok c

/-- `admin_required` (app.py lines 28-40): run `verify_jwt_in_request`,
then allow only when `claims.get("is_admin")` is truthy, else 403. -/
def admin_required (verify : Option String → Option Claims)
    (token : Option String) : Except AuthError Claims :=
  match verify_jwt_in_request verify token with
  | .error e => .error e
  | .ok claims => if claims.is_admin then .ok claims else .error .forbidden

/-! ## Data model: the SQLite rows -/

/-- A row of the `users` table.  `is_admin` is an SQLite INTEGER
(0 or 1 as written by the handlers). -/
structure UserRec where
  id : Nat
  username : String
  password_hash : String
  is_admin : Int
deriving DecidableEq, Repr

/-- A row of the `categories` table. -/
structure Category where
  id : Nat
  name : String
deriving DecidableEq, Repr

/-- What the `category_id` column of a product row can hold: an integer
id, SQL NULL, or — since SQLite would keep a non-convertible TEXT value
despite the column's INTEGER affinity — the literal empty string. -/
inductive CatId where
  | mk (n : Nat)
  | emptyText
  | null
deriving DecidableEq, Repr

/-- A row of the `products` table. -/
structure Product where
  id : Nat
  name : String
  description : String
  price : Rat
  stock : Int
  image_url : String
  category_id : CatId
deriving DecidableEq, Repr

/-- A row of the `orders` table; `order_date` is the TIMESTAMP as an
absolute time value. -/
structure Order where
  id : Nat
  customer_name : String
  customer_email : String
  shipping_address : String
  order_date : Nat
  status : String
  total_amount : Rat
deriving DecidableEq, Repr

/-- A row of the `order_items` junction table. -/
structure OrderItem where
  id : Nat
  order_id : Nat
  product_id : Nat
  quantity : Int
  price_at_purchase : Rat
deriving DecidableEq, Repr

/-- The whole SQLite database. -/
structure Store where
  users : List UserRec
  categories : List Category
  products : List Product
  orders : List Order
  order_items : List OrderItem
deriving DecidableEq, Repr

/-! ## Credential service (login_user, app.py lines 132-144) -/

/-- Outcome of `login_user`: either a signed access token carrying the
identity and the admin claim, or the single 401 error response. -/
inductive LoginResult where
  | token (subject_id : Nat) (is_admin : Bool)
  | invalid (msg : String) (code : Nat)
deriving DecidableEq, Repr

/-- `login_user` (app.py lines 132-144).  `checkPw` is
`bcrypt.check_password_hash`, an external collaborator.  The lookup is
`SELECT * FROM users WHERE username = ?` followed by
`if user_row and bcrypt.check_password_hash(...)`; both the missing
user and the failed hash check fall through to the same
`{"error": "Invalid username or password"}, 401` return. -/
def login_user (checkPw : String → String → Bool) (s : Store)
    (username password : String) : LoginResult :=
  match s.users.find? (fun u => u.username = username) with
  | some u =>
      if checkPw u.password_hash password then
        .token u.id (u.is_admin ≠ 0)
      else
        .invalid "Invalid username or password" 401
  | none => .invalid "Invalid username or password" 401

/-- `get_all_users` (app.py lines 168-174):
`SELECT id, username, is_admin FROM users` — each output row holds
exactly these three columns. -/
def get_all_users (s : Store) : List (Nat × String × Int) :=
  s.users.map (fun u => (u.id, u.username, u.is_admin))

/-! ## Category and product deletion (app.py lines 205-214, 348-355) -/

/-- `DELETE FROM categories WHERE id = ?` then a 200 response,
unconditionally (app.py lines 205-214). -/
def delete_category (s : Store) (category_id : Nat) :
    (String × Nat) × Store :=
  (("Category deleted", 200),
   { s with categories := s.categories.filter (fun c => ¬ c.id = category_id) })

/-- `DELETE FROM products WHERE id = ?` then a 200 response,
unconditionally (app.py lines 348-355). -/
def delete_product (s : Store) (product_id : Nat) :
    (String × Nat) × Store :=
  ((s!"Product with ID {product_id} deleted", 200),
   { s with products := s.products.filter (fun p => ¬ p.id = product_id) })

/-! ## Product reads (get_product, app.py lines 307-319) -/

/-- The `LEFT JOIN categories c ON p.category_id = c.id` column
`c.name`: NULL category_id (or a non-integer remnant) matches no
category row, so the joined name is null. -/
def categoryNameOf (s : Store) : CatId → Option String
  | .mk n => (s.categories.find? (fun c => c.id = n)).map (fun c => c.name)
  | .emptyText => none
  | .null => none

/-- A row of `SELECT p.*, c.name as category_name ... LEFT JOIN`. -/
structure ProductView where
  product : Product
  category_name : Option String
deriving DecidableEq, Repr

/-- `get_product` (app.py lines 307-319): the joined single-product
read; `none` models the 404 "Product not found" response. -/
def get_product (s : Store) (product_id : Nat) : Option ProductView :=
  (s.products.find? (fun p => p.id = product_id)).map
    (fun p => ⟨p, categoryNameOf s p.category_id⟩)

/-! ## Partial update (update_product, app.py lines 322-345) -/

/-- The JSON value supplied for `category_id` in an update payload:
an integer id, the empty string sentinel, or null. -/
inductive CatIdInput where
  | idv (n : Nat)
  | emptyStr
  | nullv
deriving DecidableEq, Repr

/-- The request body of `update_product`, restricted to the columns of
the `products` table (the handler pastes arbitrary keys into the SET
clause; keys that are not columns would abort in SQL).  `none` means
the key is absent from the patch dict. -/
structure ProductPatch where
  name : Option String := none
  description : Option String := none
  price : Option Rat := none
  stock : Option Int := none
  image_url : Option String := none
  category_id : Option CatIdInput := none
deriving DecidableEq, Repr

/-- The patch dict with no keys (`if not data` in the handler). -/
def ProductPatch.isEmpty (pt : ProductPatch) : Bool :=
  pt.name = none ∧ pt.description = none ∧ pt.price = none ∧
  pt.stock = none ∧ pt.image_url = none ∧ pt.category_id = none

/-- The handler's normalization (app.py lines 334-336):
`if 'category_id' in data and data['category_id'] == '':
data['category_id'] = None`. -/
def normalizeCatPatch (v : CatIdInput) : CatIdInput :=
  if v = .emptyStr then .nullv else v

/-- What the generic SET clause stores for a `category_id` value: an
integer, NULL for Python None, and the literal empty string if it ever
reaches the database unnormalized. -/
def storeCatInput : CatIdInput → CatId
  | .idv n => .mk n
  | .emptyStr => .emptyText
  | .nullv => .null

/-- One row after `UPDATE products SET <keys of data> WHERE id = ?`:
each column named in the patch takes the supplied value, every other
column keeps its prior value. -/
def applyPatch (pt : ProductPatch) (p : Product) : Product :=
  { p with
    name := pt.name.getD p.name
    description := pt.description.getD p.description
    price := pt.price.getD p.price
    stock := pt.stock.getD p.stock
    image_url := pt.image_url.getD p.image_url
    category_id :=
      match pt.category_id with
      | none => p.category_id
      | some v => storeCatInput (normalizeCatPatch v) }

/-- The three responses `update_product` can give. -/
inductive UpdateOutcome where
  | badRequest (msg : String)
  | notFound (msg : String)
  | ok (view : ProductView)
deriving DecidableEq, Repr

/-- `update_product` (app.py lines 322-345): reject an empty body,
404 when no product row has the id, otherwise normalize `category_id`,
run the UPDATE on every row matching the id, and answer with
`get_product` on the new store. -/
def update_product (s : Store) (product_id : Nat) (pt : ProductPatch) :
    UpdateOutcome × Store :=
  if pt.isEmpty then
    (.badRequest "No update data provided.", s)
  else
    match s.products.find? (fun p => p.id = product_id) with
    | none => (.notFound "Product not found", s)
    | some _ =>
        let s' : Store :=
          { s with products := (s.products.map
              (fun p => if p.id = product_id then applyPatch pt p else p)) }
        match get_product s' product_id with
        | some v => (.ok v, s')
        | none => (.notFound "Product not found", s')

/-! ## Order listing (get_all_orders, app.py lines 219-225) -/

/-- The ORDER BY key: row `a` may precede row `b` exactly when
`a.order_date ≥ b.order_date` (`ORDER BY order_date DESC`). -/
def dateDesc (a b : Order) : Prop :=
  b.order_date ≤ a.order_date

instance : DecidableRel dateDesc := fun a b =>
  Nat.decLe b.order_date a.order_date

instance : IsTotal Order dateDesc :=
  ⟨fun a b => (Nat.le_total b.order_date a.order_date).elim Or.inl Or.inr⟩

instance : IsTrans Order dateDesc :=
  ⟨fun _ _ _ hab hbc => Nat.le_trans hbc hab⟩

/-- `get_all_orders` (app.py lines 219-225):
`SELECT * FROM orders ORDER BY order_date DESC`, modelled as sorting
the order rows by descending `order_date` (SQL leaves the relative
order of equal timestamps unspecified; a sort realizes one such
permutation). -/
def get_all_orders (s : Store) : List Order :=
  List.insertionSort dateDesc s.orders

/-! ## Order status update (update_order_status, app.py lines 249-262) -/

/-- The two responses `update_order_status` can give: the 400 for a
body without a `status` key, or the 200 success message.  There is no
404 branch in the handler. -/
inductive StatusOutcome where
  | badRequest (msg : String)
  | success (msg : String)
deriving DecidableEq, Repr

/-- `update_order_status` (app.py lines 249-262): after the body check,
`UPDATE orders SET status = ? WHERE id = ?` runs unconditionally (it
touches every row whose id matches — zero rows when the id is absent)
and the handler always answers with the success message.  `data` is
the `status` value of the request body, `none` when the body is empty
or lacks the key. -/
def update_order_status (s : Store) (order_id : Nat)
    (data : Option String) : StatusOutcome × Store :=
  match data with
  | none => (.badRequest "Status is required", s)
  | some new_status =>
      (.success s!"Order {order_id} status updated to {new_status}",
       { s with orders := (s.orders.map
           (fun o => if o.id = order_id then { o with status := new_status }
                     else o)) })

/-! ## Order detail (get_order_details, app.py lines 228-246) -/

/-- A row of `SELECT oi.quantity, oi.price_at_purchase, p.name FROM
order_items oi JOIN products p ON oi.product_id = p.id`. -/
structure ItemRow where
  quantity : Int
  price_at_purchase : Rat
  name : String
deriving DecidableEq, Repr

/-- The item join of `get_order_details`: the order's items, inner
joined to the product row carrying their `product_id` (an item whose
product no longer exists yields no row). -/
def order_item_rows (s : Store) (order_id : Nat) : List ItemRow :=
  (s.order_items.filter (fun oi => oi.order_id = order_id)).filterMap
    (fun oi =>
      (s.products.find? (fun p => p.id = oi.product_id)).map
        (fun p => ⟨oi.quantity, oi.price_at_purchase, p.name⟩))

/-- `get_order_details` (app.py lines 228-246): 404 (`none`) when no
order row has the id, otherwise the order together with its joined
item rows. -/
def get_order_details (s : Store) (order_id : Nat) :
    Option (Order × List ItemRow) :=
  (s.orders.find? (fun o => o.id = order_id)).map
    (fun o => (o, order_item_rows s order_id))

/-! ## Product creation (create_product, app1.py lines 292-316)

The repository holds two iterated snapshots of the backend; app1.py is
the later one, whose validation branch is the behavior the test suite
(test_022) checks.  app.py's earlier snapshot indexes `data['name']`
directly and has no 400 branch. -/

/-- The column values the INSERT of `create_product` binds; the handler
performs no conversion, so each is the JSON value from the request. -/
structure NewProduct where
  name : JVal
  description : JVal
  price : JVal
  stock : JVal
  image_url : JVal
  category_id : JVal
deriving DecidableEq, Repr

/-- `create_product` (app1.py lines 292-316): `name = data.get('name')`,
`price = data.get('price')`, reject with 400 when
`not name or price is None`, otherwise insert with
`data.get('description', '')`, `data.get('stock', 0)`,
`data.get('image_url', '')`, `data.get('category_id')`. -/
def create_product (data : List (String × JVal)) :
    Except String NewProduct :=
  let name := pyGet data "name"
  let price := pyGet data "price"
  if ¬ truthy name ∨ price = JVal.null then
    .error "Name and price are required fields."
  else
    .ok { name := name
          description := pyGetD data "description" (.str "")
          price := price
          stock := pyGetD data "stock" (.num 0)
          image_url := pyGetD data "image_url" (.str "")
          category_id := pyGet data "category_id" }

/-! ## Shared helper lemmas -/

/-- Searching a mapped list with a predicate the map preserves is the
map of the search. -/
theorem find?_map_comm {α : Type} (f : α → α) (q : α → Bool)
    (hf : ∀ a, q (f a) = q a) :
    ∀ l : List α, (l.map f).find? q = (l.find? q).map f := by
  intro l
  induction l with
  | nil => rfl
  | cons a l ih =>
      by_cases hq : q a
      · simp [List.find?_cons, hf a, hq]
      · simp only [List.map_cons, List.find?_cons, hf a]
        simp only [Bool.not_eq_true] at hq
        simp [hq, ih]

/-- Mapping `h` over two filterMaps agrees when it agrees pointwise on
the optional results. -/
theorem filterMap_map_congr {α β γ : Type} (f g : α → Option β) (h : β → γ)
    (hfg : ∀ a, (f a).map h = (g a).map h) :
    ∀ l : List α, (l.filterMap f).map h = (l.filterMap g).map h := by
  intro l
  induction l with
  | nil => rfl
  | cons a l ih =>
      have ha := hfg a
      cases hf : f a with
      | none =>
          cases hg : g a with
          | none => simp [List.filterMap_cons, hf, hg, ih]
          | some b => rw [hf, hg] at ha; simp at ha
      | some b =>
          cases hg : g a with
          | none => rw [hf, hg] at ha; simp at ha
          | some c =>
              rw [hf, hg] at ha
              simp at ha
              simp [List.filterMap_cons, hf, hg, ih, ha]

/-- An empty patch changes nothing in a row. -/
theorem applyPatch_of_isEmpty (pt : ProductPatch) (h : pt.isEmpty = true)
    (p : Product) : applyPatch pt p = p := by
  have h' := of_decide_eq_true h
  obtain ⟨h1, h2, h3, h4, h5, h6⟩ := h'
  simp [applyPatch, h1, h2, h3, h4, h5, h6]

/-- A patch never changes the primary key. -/
theorem applyPatch_id (pt : ProductPatch) (p : Product) :
    (applyPatch pt p).id = p.id := rfl

/-- In every branch of `update_product`, the resulting product table is
the UPDATE applied to each row matching the id (when the body is empty
or the id is absent, that map is the identity). -/
theorem update_product_products_eq (s : Store) (pid : Nat)
    (pt : ProductPatch) :
    ((update_product s pid pt).2).products
      = s.products.map
          (fun p => if p.id = pid then applyPatch pt p else p) := by
  unfold update_product
  by_cases he : pt.isEmpty
  · simp only [he, if_pos]
    have : ∀ p ∈ s.products,
        (if p.id = pid then applyPatch pt p else p) = p := by
      intro p _
      by_cases hp : p.id = pid
      · simp [hp, applyPatch_of_isEmpty pt he p]
      · simp [hp]
    simp [List.map_congr_left this]
  · simp only [Bool.not_eq_true] at he
    simp only [he, Bool.false_eq_true, if_neg, not_false_iff]
    cases hf : s.products.find? (fun p => p.id = pid) with
    | none =>
        have hnone := List.find?_eq_none.mp hf
        have : ∀ p ∈ s.products,
            (if p.id = pid then applyPatch pt p else p) = p := by
          intro p hp
          have := hnone p hp
          simp only [decide_eq_true_eq] at this
          simp [this]
        simp [List.map_congr_left this]
    | some p0 =>
        cases hg : get_product
            { s with products := (s.products.map
                (fun p => if p.id = pid then applyPatch pt p else p)) } pid with
        | none => simp
        | some v => simp

/-- `update_product` never writes to the `order_items` table. -/
theorem update_product_order_items_eq (s : Store) (pid : Nat)
    (pt : ProductPatch) :
    ((update_product s pid pt).2).order_items = s.order_items := by
  unfold update_product
  by_cases he : pt.isEmpty
  · simp [he]
  · simp only [Bool.not_eq_true] at he
    simp only [he, Bool.false_eq_true, if_neg, not_false_iff]
    cases hf : s.products.find? (fun p => p.id = pid) with
    | none => simp
    | some p0 =>
        cases hg : get_product
            { s with products := (s.products.map
                (fun p => if p.id = pid then applyPatch pt p else p)) } pid with
        | none => simp
        | some v => simp

/-! ## Concrete stores used in closed statements -/

/-- A store with one order (id 1), two products (ids 1 and 2, product 1
in category 1), one category, one order with two line items, and one
admin user. -/
def demoStore : Store :=
  { users := [⟨1, "admin", "hash-of-changethispassword", 1⟩],
    categories := [⟨1, "Electronics"⟩],
    products := [⟨1, "Phone", "d", 10, 5, "u", .mk 1⟩,
                 ⟨2, "TV", "", 20, 1, "", .null⟩],
    orders := [⟨1, "Alice", "alice@example.com", "1 Way", 100, "Pending", 40⟩],
    order_items := [⟨1, 1, 1, 2, 10⟩, ⟨2, 1, 2, 1, 20⟩] }

/-- A store whose orders table holds an old order (id 1, date 100) and
a newer one (id 3, date 300), inserted oldest first. -/
def twoOrderStore : Store :=
  { demoStore with
    orders := [⟨1, "Alice", "alice@example.com", "1 Way", 100, "Pending", 40⟩,
               ⟨3, "Carol", "carol@example.com", "3 Way", 300, "Pending", 7⟩] }

/-! ## Claims -/

/-- C1: the spec says the admin-only status update fails with NotFound
when the order id does not exist; the handler, however, has no
existence check — on a store whose only order has id 1, updating order
99999 answers the 200 success message while no order 99999 exists
before or after (the repo's own test_035 expects 404 here). -/
theorem update_order_status_missing_id_reports_success :
    (update_order_status demoStore 99999 (some "Cancelled")).1
        = .success "Order 99999 status updated to Cancelled" ∧
    demoStore.orders.find? (fun o => o.id = 99999) = none ∧
    (update_order_status demoStore 99999 (some "Cancelled")).2
        = demoStore := by
  decide

/-- C2: deleteProduct and deleteCategory answer 200 success for every
id — also when no row matches — and afterwards no row with that id
exists in the respective table. -/
theorem delete_requests_always_succeed (s : Store) (id : Nat) :
    (delete_product s id).1 = (s!"Product with ID {id} deleted", 200) ∧
    (delete_category s id).1 = ("Category deleted", 200) ∧
    (∀ p ∈ (delete_product s id).2.products, p.id ≠ id) ∧
    (∀ c ∈ (delete_category s id).2.categories, c.id ≠ id) := by
  refine ⟨rfl, rfl, ?_, ?_⟩
  · intro p hp
    simp only [delete_product, List.mem_filter, decide_eq_true_eq] at hp
    exact hp.2
  · intro c hc
    simp only [delete_category, List.mem_filter, decide_eq_true_eq] at hc
    exact hc.2

/-- C2 witness: deleting the absent product id 9999 from `demoStore`
succeeds, and the surviving product row with id 1 indeed has id ≠ 9999. -/
theorem delete_requests_always_succeed_witness :
    (delete_product demoStore 9999).1
        = ("Product with ID 9999 deleted", 200) ∧
    (⟨1, "Phone", "d", 10, 5, "u", .mk 1⟩ : Product).id ≠ 9999 :=
  ⟨(delete_requests_always_succeed demoStore 9999).1,
   (delete_requests_always_succeed demoStore 9999).2.2.1
     ⟨1, "Phone", "d", 10, 5, "u", .mk 1⟩ (by decide)⟩

/-- C3: admin_required is requireAuthenticated followed by the admin
check; a verifiable token whose claims carry is_admin = false yields
forbidden, an unverifiable (missing/malformed/expired/badly signed)
token yields unauthenticated, and the two outcomes differ. -/
theorem admin_required_two_failure_modes
    (verify : Option String → Option Claims) (token : Option String) :
    (admin_required verify token
        = (verify_jwt_in_request verify token).bind
            (fun c => if c.is_admin then .ok c else .error .forbidden)) ∧
    (∀ c, verify token = some c → c.is_admin = false →
        admin_required verify token = .error .forbidden) ∧
    (verify token = none →
        admin_required verify token = .error .unauthenticated) ∧
    (AuthError.forbidden ≠ AuthError.unauthenticated) := by
  refine ⟨?_, ?_, ?_, by decide⟩
  · cases h : verify token with
    | none => simp [admin_required, verify_jwt_in_request, h, Except.bind]
    | some c => simp [admin_required, verify_jwt_in_request, h, Except.bind]
  · intro c hc hadm
    simp [admin_required, verify_jwt_in_request, hc, hadm]
  · intro h
    simp [admin_required, verify_jwt_in_request, h]

/-- C3 witness: with a verifier accepting exactly the token "t" with
non-admin claims, admin_required forbids "t" and rejects a missing
token as unauthenticated. -/
theorem admin_required_two_failure_modes_witness :
    (admin_required
        (fun t => if t = some "t" then some ⟨7, false⟩ else none)
        (some "t") = .error .forbidden) ∧
    (admin_required
        (fun t => if t = some "t" then some ⟨7, false⟩ else none)
        none = .error .unauthenticated) :=
  ⟨(admin_required_two_failure_modes
      (fun t => if t = some "t" then some ⟨7, false⟩ else none)
      (some "t")).2.1 ⟨7, false⟩ (by decide) rfl,
   (admin_required_two_failure_modes
      (fun t => if t = some "t" then some ⟨7, false⟩ else none)
      none).2.2.1 (by decide)⟩

/-- C4 counterexample: in the payload both `name` and `price` are
present and `price` is non-null, yet create_product answers the 400
validation error instead of creating a product — `not name` in the
handler also rejects a present-but-empty name. -/
theorem create_product_rejects_empty_name :
    ([("name", JVal.str ""), ("price", JVal.num 5)].lookup "name"
        = some (.str "")) ∧
    ([("name", JVal.str ""), ("price", JVal.num 5)].lookup "price"
        = some (.num 5)) ∧
    pyGet [("name", JVal.str ""), ("price", JVal.num 5)] "price"
        ≠ .null ∧
    create_product [("name", JVal.str ""), ("price", JVal.num 5)]
        = .error "Name and price are required fields." :=
  ⟨rfl, rfl, by decide, rfl⟩

/-- C4 amended: create_product fails with the validation error exactly
when `name` is absent or falsy (null, empty string, zero or false) or
`price` is absent or null; when `name` is present and truthy and
`price` present and non-null, the product is created, with description
"", stock 0, image_url "" and category_id null substituted for any
absent optional field. -/
theorem create_product_requires_truthy_name
    (data : List (String × JVal)) :
    (¬ truthy (pyGet data "name") ∨ pyGet data "price" = .null →
        create_product data
          = .error "Name and price are required fields.") ∧
    (truthy (pyGet data "name") → pyGet data "price" ≠ .null →
        ∃ p : NewProduct, create_product data = .ok p ∧
          p.name = pyGet data "name" ∧
          p.price = pyGet data "price" ∧
          (data.lookup "description" = none → p.description = .str "") ∧
          (data.lookup "stock" = none → p.stock = .num 0) ∧
          (data.lookup "image_url" = none → p.image_url = .str "") ∧
          (data.lookup "category_id" = none → p.category_id = .null)) := by
  constructor
  · intro h
    simp only [create_product]
    rw [if_pos]
    exact h
  · intro h1 h2
    refine ⟨{ name := pyGet data "name"
              description := pyGetD data "description" (.str "")
              price := pyGet data "price"
              stock := pyGetD data "stock" (.num 0)
              image_url := pyGetD data "image_url" (.str "")
              category_id := pyGet data "category_id" },
            ?_, rfl, rfl, ?_, ?_, ?_, ?_⟩
    · simp only [create_product]
      rw [if_neg]
      intro h
      cases h with
      | inl h => exact h h1
      | inr h => exact h2 h
    · intro h; simp [pyGetD, h]
    · intro h; simp [pyGetD, h]
    · intro h; simp [pyGetD, h]
    · intro h; simp [pyGet, h]

/-- C4 witness: a payload missing `name` is rejected, and the payload
with name "X" and price 3 and nothing else creates a product with all
four defaults. -/
theorem create_product_requires_truthy_name_witness :
    (create_product [("price", JVal.num 3)]
        = .error "Name and price are required fields.") ∧
    (∃ p : NewProduct,
        create_product [("name", JVal.str "X"), ("price", JVal.num 3)]
          = .ok p ∧
        p.name = pyGet [("name", JVal.str "X"), ("price", JVal.num 3)]
            "name" ∧
        p.price = pyGet [("name", JVal.str "X"), ("price", JVal.num 3)]
            "price" ∧
        ([("name", JVal.str "X"),
            ("price", JVal.num 3)].lookup "description" = none →
          p.description = .str "") ∧
        ([("name", JVal.str "X"),
            ("price", JVal.num 3)].lookup "stock" = none →
          p.stock = .num 0) ∧
        ([("name", JVal.str "X"),
            ("price", JVal.num 3)].lookup "image_url" = none →
          p.image_url = .str "") ∧
        ([("name", JVal.str "X"),
            ("price", JVal.num 3)].lookup "category_id" = none →
          p.category_id = .null)) :=
  ⟨(create_product_requires_truthy_name [("price", JVal.num 3)]).1
      (by decide),
   (create_product_requires_truthy_name
      [("name", JVal.str "X"), ("price", JVal.num 3)]).2
      (by decide) (by decide)⟩

/-- C5: update_product modifies exactly the columns named in the
patch: the product table keeps its length, every row whose id differs
from the target is unchanged, and the target row takes the patch value
on each present key (category_id after the empty-string normalization)
while keeping its prior value on each absent key. -/
theorem update_product_touches_only_patched (s : Store) (pid : Nat)
    (pt : ProductPatch) :
    ((update_product s pid pt).2).products.length
        = s.products.length ∧
    ∀ (i : Nat) (hi : i < s.products.length)
      (hi' : i < ((update_product s pid pt).2).products.length),
      ((s.products.get ⟨i, hi⟩).id ≠ pid →
          ((update_product s pid pt).2).products.get ⟨i, hi'⟩
            = s.products.get ⟨i, hi⟩) ∧
      ((s.products.get ⟨i, hi⟩).id = pid →
        (((update_product s pid pt).2).products.get ⟨i, hi'⟩).id
            = (s.products.get ⟨i, hi⟩).id ∧
        (pt.name = none →
          (((update_product s pid pt).2).products.get ⟨i, hi'⟩).name
            = (s.products.get ⟨i, hi⟩).name) ∧
        (∀ v, pt.name = some v →
          (((update_product s pid pt).2).products.get ⟨i, hi'⟩).name
            = v) ∧
        (pt.description = none →
          (((update_product s pid pt).2).products.get
              ⟨i, hi'⟩).description
            = (s.products.get ⟨i, hi⟩).description) ∧
        (∀ v, pt.description = some v →
          (((update_product s pid pt).2).products.get
              ⟨i, hi'⟩).description = v) ∧
        (pt.price = none →
          (((update_product s pid pt).2).products.get ⟨i, hi'⟩).price
            = (s.products.get ⟨i, hi⟩).price) ∧
        (∀ v, pt.price = some v →
          (((update_product s pid pt).2).products.get ⟨i, hi'⟩).price
            = v) ∧
        (pt.stock = none →
          (((update_product s pid pt).2).products.get ⟨i, hi'⟩).stock
            = (s.products.get ⟨i, hi⟩).stock) ∧
        (∀ v, pt.stock = some v →
          (((update_product s pid pt).2).products.get ⟨i, hi'⟩).stock
            = v) ∧
        (pt.image_url = none →
          (((update_product s pid pt).2).products.get
              ⟨i, hi'⟩).image_url
            = (s.products.get ⟨i, hi⟩).image_url) ∧
        (∀ v, pt.image_url = some v →
          (((update_product s pid pt).2).products.get
              ⟨i, hi'⟩).image_url = v) ∧
        (pt.category_id = none →
          (((update_product s pid pt).2).products.get
              ⟨i, hi'⟩).category_id
            = (s.products.get ⟨i, hi⟩).category_id) ∧
        (∀ v, pt.category_id = some v →
          (((update_product s pid pt).2).products.get
              ⟨i, hi'⟩).category_id
            = storeCatInput (normalizeCatPatch v))) := by
  have hprod := update_product_products_eq s pid pt
  constructor
  · rw [hprod, List.length_map]
  · intro i hi hi'
    have hget : ((update_product s pid pt).2).products.get ⟨i, hi'⟩
        = if (s.products.get ⟨i, hi⟩).id = pid
          then applyPatch pt (s.products.get ⟨i, hi⟩)
          else s.products.get ⟨i, hi⟩ := by
      simp only [List.get_eq_getElem, hprod, List.getElem_map]
    constructor
    · intro hne
      rw [hget, if_neg hne]
    · intro heq
      rw [hget, if_pos heq]
      refine ⟨applyPatch_id pt _, ?_, ?_, ?_, ?_, ?_, ?_, ?_, ?_, ?_,
              ?_, ?_, ?_⟩ <;>
        first
          | (intro h; simp [applyPatch, h])
          | (intro v h; simp [applyPatch, h])

/-- C5 witness: patching product 1 of `demoStore` with just
`{price: 42}` keeps the table length, leaves the row of product 2
unchanged, keeps product 1's name and sets its price. -/
theorem update_product_touches_only_patched_witness :
    ((update_product demoStore 1 { price := some 42 }).2).products.length
        = demoStore.products.length ∧
    ((demoStore.products.get ⟨1, by decide⟩).id ≠ 1 →
      ((update_product demoStore 1
          { price := some 42 }).2).products.get ⟨1, by decide⟩
        = demoStore.products.get ⟨1, by decide⟩) ∧
    ((demoStore.products.get ⟨0, by decide⟩).id = 1 →
      (((update_product demoStore 1
            { price := some 42 }).2).products.get ⟨0, by decide⟩).name
        = (demoStore.products.get ⟨0, by decide⟩).name) := by
  refine ⟨?_, ?_, ?_⟩
  · exact (update_product_touches_only_patched demoStore 1
      { price := some 42 }).1
  · exact ((update_product_touches_only_patched demoStore 1
      { price := some 42 }).2 1 (by decide) (by decide)).1
  · intro h
    exact (((update_product_touches_only_patched demoStore 1
        { price := some 42 }).2 0 (by decide) (by decide)).2 h).2.1 rfl

/-- C6: patching an existing product with `{category_id: ""}` succeeds
and stores an explicit null `category_id` — not the empty string — and
the joined view carries `category_name = null`. -/
theorem update_product_empty_string_clears_category (s : Store)
    (pid : Nat) (p0 : Product)
    (h : s.products.find? (fun p => p.id = pid) = some p0) :
    ∃ v : ProductView,
      (update_product s pid { category_id := some .emptyStr }).1
          = .ok v ∧
      v.product.category_id = .null ∧
      v.product.category_id ≠ .emptyText ∧
      v.category_name = none := by
  have hqf : ∀ p : Product,
      (decide ((if p.id = pid then
          applyPatch { category_id := some .emptyStr } p else p).id = pid))
        = decide (p.id = pid) := by
    intro p
    by_cases hp : p.id = pid
    · simp [hp, applyPatch_id]
    · simp [hp]
  have hp0 : p0.id = pid := by
    have := List.find?_some h
    simpa using this
  have hfind :
      ((s.products.map (fun p => if p.id = pid then
          applyPatch { category_id := some .emptyStr } p else p)).find?
        (fun p => p.id = pid))
      = some (applyPatch { category_id := some .emptyStr } p0) := by
    rw [find?_map_comm _ _ hqf, h]
    simp [hp0]
  have hcat : (applyPatch { category_id := some .emptyStr }
      p0).category_id = .null := rfl
  refine ⟨⟨applyPatch { category_id := some .emptyStr } p0, none⟩,
          ?_, hcat, by rw [hcat]; decide, rfl⟩
  unfold update_product
  have hne : ({ category_id := some .emptyStr } :
      ProductPatch).isEmpty = false := by decide
  rw [if_neg (by simp [hne]), h]
  simp [get_product, hfind, hcat, categoryNameOf]

/-- C6 witness: clearing the category of product 1 in `demoStore`
(which starts in category 1) yields the null association and a null
joined category name. -/
theorem update_product_empty_string_clears_category_witness :
    demoStore.products.find? (fun p => p.id = 1)
        = some ⟨1, "Phone", "d", 10, 5, "u", .mk 1⟩ ∧
    ∃ v : ProductView,
      (update_product demoStore 1 { category_id := some .emptyStr }).1
          = .ok v ∧
      v.product.category_id = .null ∧
      v.product.category_id ≠ .emptyText ∧
      v.category_name = none :=
  ⟨by decide,
   update_product_empty_string_clears_category demoStore 1
     ⟨1, "Phone", "d", 10, 5, "u", .mk 1⟩ (by decide)⟩

/-- C7: get_all_orders lists the orders by order_date descending — at
any two positions i < j of the result, the later position carries the
older (or equal) timestamp. -/
theorem get_all_orders_sorted_descending (s : Store) (i j : Nat)
    (hij : i < j) (hj : j < (get_all_orders s).length) :
    ((get_all_orders s).get ⟨j, hj⟩).order_date
      ≤ ((get_all_orders s).get ⟨i, Nat.lt_trans hij hj⟩).order_date := by
  have hs : List.Sorted dateDesc (get_all_orders s) :=
    List.sorted_insertionSort dateDesc s.orders
  exact hs.rel_get_of_lt hij

/-- C7 witness: on `twoOrderStore`, whose order 3 is newest, position 1
of the listing holds an order at least as old as position 0. -/
theorem get_all_orders_sorted_descending_witness :
    ((get_all_orders twoOrderStore).get ⟨1, by decide⟩).order_date
      ≤ ((get_all_orders twoOrderStore).get ⟨0, by decide⟩).order_date :=
  get_all_orders_sorted_descending twoOrderStore 0 1 (by decide)
    (by decide)

/-- C8: login_user gives the very same InvalidCredentials response for
a username with no stored record (store s1) and for a stored username
with a wrong password (store s2): both runs return the identical
401 "Invalid username or password" value, never revealing which case
occurred. -/
theorem login_user_uniform_invalid_credentials
    (checkPw : String → String → Bool) (s1 s2 : Store)
    (u1 u2 p1 p2 : String) (r : UserRec)
    (h1 : s1.users.find? (fun x => x.username = u1) = none)
    (h2 : s2.users.find? (fun x => x.username = u2) = some r)
    (hpw : checkPw r.password_hash p2 = false) :
    login_user checkPw s1 u1 p1
        = .invalid "Invalid username or password" 401 ∧
    login_user checkPw s2 u2 p2
        = .invalid "Invalid username or password" 401 ∧
    login_user checkPw s1 u1 p1 = login_user checkPw s2 u2 p2 := by
  refine ⟨?_, ?_, ?_⟩ <;> simp [login_user, h1, h2, hpw]

/-- C8 witness: with equality as the hash check, an unknown username
on the empty user table and the stored admin of `demoStore` given a
wrong password produce the identical error value. -/
theorem login_user_uniform_invalid_credentials_witness :
    login_user (fun h p => h == p)
        { demoStore with users := [] } "ghost" "x"
        = .invalid "Invalid username or password" 401 ∧
    login_user (fun h p => h == p) demoStore "admin" "wrong"
        = .invalid "Invalid username or password" 401 ∧
    login_user (fun h p => h == p)
        { demoStore with users := [] } "ghost" "x"
        = login_user (fun h p => h == p) demoStore "admin" "wrong" :=
  login_user_uniform_invalid_credentials (fun h p => h == p)
    { demoStore with users := [] } demoStore "ghost" "admin" "x" "wrong"
    ⟨1, "admin", "hash-of-changethispassword", 1⟩
    (by decide) (by decide) (by decide)

/-- Every row of the order-detail item join comes from a line item of
the order joined to the product row found for its product_id: the
quantity and the frozen purchase price are the item's, the name is the
product's at lookup time. -/
theorem mem_order_item_rows (s : Store) (oid : Nat) (r : ItemRow)
    (hr : r ∈ order_item_rows s oid) :
    ∃ oi, oi ∈ s.order_items ∧ oi.order_id = oid ∧
      ∃ p, s.products.find? (fun q => q.id = oi.product_id) = some p ∧
        r.name = p.name ∧ r.quantity = oi.quantity ∧
        r.price_at_purchase = oi.price_at_purchase := by
  simp only [order_item_rows, List.mem_filterMap] at hr
  obtain ⟨oi, hoi, hmap⟩ := hr
  rw [List.mem_filter] at hoi
  obtain ⟨hmem, hord⟩ := hoi
  cases hf : s.products.find? (fun q => q.id = oi.product_id) with
  | none => rw [hf] at hmap; simp at hmap
  | some p =>
      rw [hf] at hmap
      simp only [Option.map_some'] at hmap
      obtain rfl := Option.some.inj hmap
      exact ⟨oi, hmem, by simpa using hord, p, hf, rfl, rfl, rfl⟩

/-- C9: running a partial product update (for instance one that changes
the product's price) leaves every item row's price_at_purchase in the
order detail exactly as before the update, and each row still carries
the item's frozen price while its name is read from the live (updated)
product row found at lookup time. -/
theorem order_item_price_frozen_under_update (s : Store) (pid : Nat)
    (pt : ProductPatch) (oid : Nat) :
    ((order_item_rows ((update_product s pid pt).2) oid).map
        (fun r => r.price_at_purchase)
      = (order_item_rows s oid).map (fun r => r.price_at_purchase)) ∧
    (∀ r ∈ order_item_rows ((update_product s pid pt).2) oid,
      ∃ oi, oi ∈ s.order_items ∧ oi.order_id = oid ∧
        ∃ p, ((update_product s pid pt).2).products.find?
              (fun q => q.id = oi.product_id) = some p ∧
          r.name = p.name ∧
          r.price_at_purchase = oi.price_at_purchase) := by
  have hitems := update_product_order_items_eq s pid pt
  have hprods := update_product_products_eq s pid pt
  constructor
  · unfold order_item_rows
    rw [hitems]
    apply filterMap_map_congr
    intro oi
    have hq : ∀ p : Product,
        (decide ((if p.id = pid then applyPatch pt p else p).id
            = oi.product_id))
          = decide (p.id = oi.product_id) := by
      intro p
      by_cases hp : p.id = pid
      · simp [hp, applyPatch_id]
      · simp [hp]
    rw [hprods, find?_map_comm _ _ hq]
    cases s.products.find? (fun q => q.id = oi.product_id) with
    | none => rfl
    | some p => rfl
  · intro r hr
    obtain ⟨oi, hmem, hord, p, hf, hname, _, hprice⟩ :=
      mem_order_item_rows ((update_product s pid pt).2) oid r hr
    rw [hitems] at hmem
    exact ⟨oi, hmem, hord, p, hf, hname, hprice⟩

/-- C9 witness: in `demoStore`, patching product 1's price from 10 to
99 leaves the two item rows' purchase prices [10, 20] unchanged, and
the first row of the updated detail keeps item 1's frozen price. -/
theorem order_item_price_frozen_under_update_witness :
    ((order_item_rows
        ((update_product demoStore 1 { price := some 99 }).2) 1).map
        (fun r => r.price_at_purchase)
      = (order_item_rows demoStore 1).map
          (fun r => r.price_at_purchase)) ∧
    (∃ oi, oi ∈ demoStore.order_items ∧ oi.order_id = 1 ∧
      ∃ p, ((update_product demoStore 1
              { price := some 99 }).2).products.find?
            (fun q => q.id = oi.product_id) = some p ∧
        (ItemRow.mk 2 10 "Phone").name = p.name ∧
        (ItemRow.mk 2 10 "Phone").price_at_purchase
            = oi.price_at_purchase) :=
  ⟨(order_item_price_frozen_under_update demoStore 1
      { price := some 99 } 1).1,
   (order_item_price_frozen_under_update demoStore 1
      { price := some 99 } 1).2 (ItemRow.mk 2 10 "Phone") (by decide)⟩

/-- C10: the user listing projects each user row to exactly
(id, username, is_admin); two stores whose user tables agree on these
three columns — in particular two stores differing only in some
password_hash — produce the identical listing. -/
theorem get_all_users_ignores_password_hash (s1 s2 : Store)
    (h : List.Forall₂ (fun a b => a.id = b.id ∧ a.username = b.username ∧
        a.is_admin = b.is_admin) s1.users s2.users) :
    get_all_users s1 = get_all_users s2 := by
  unfold get_all_users
  generalize s1.users = l1 at h
  generalize s2.users = l2 at h
  induction h with
  | nil => rfl
  | cons hab htl ih =>
      obtain ⟨h1, h2, h3⟩ := hab
      simp only [List.map_cons, ih, h1, h2, h3]

/-- C10 witness: changing only the admin's password_hash in
`demoStore` leaves the user listing identical. -/
theorem get_all_users_ignores_password_hash_witness :
    get_all_users demoStore
      = get_all_users
          { demoStore with users := [⟨1, "admin", "other-hash", 1⟩] } :=
  get_all_users_ignores_password_hash demoStore
    { demoStore with users := [⟨1, "admin", "other-hash", 1⟩] }
    (List.Forall₂.cons ⟨rfl, rfl, rfl⟩ List.Forall₂.nil)

end AroBazzar
